import Mathlib

/-!
Verification of the Polly-API Python client (`client.py`) against its
specification.

The client wraps six HTTP endpoints of a polling service.  Each Python
function builds one HTTP request (URL, headers, body), performs one
synchronous call through the `requests` library, raises on 4xx/5xx status
via `raise_for_status`, parses the body as JSON on success, and prints
endpoint-specific diagnostic hints before re-raising errors.

The embedding below models:
  * JSON values (`Json`), Python `json.dumps` serialization (`Json.dumps`,
    with the default separators that insert a space after each colon and
    comma), and JSON parsing (`Json.parse`, a model of the library's
    `response.json()` decoding boundary);
  * `urllib` form/query percent-encoding as used by `requests` for form
    data and query parameters (`quotePlus`, `formUrlEncode`);
  * the network boundary as an explicit argument (`NetOutcome`): either a
    delivered HTTP response (final status and raw body) or a transport
    failure with no response;
  * the error taxonomy (`ClientError`): HTTP status error, transport
    error, JSON decode error;
  * each of the six client functions as a pure function from its inputs
    and the simulated network outcome to the request it sends, the result
    it returns or raises, and the diagnostic lines it prints
    (`CallResult`);
  * the `__main__` example driver's control flow (`driver`), as a function
    from the five step outcomes to the list of steps actually attempted.
-/

/-- JSON values, as produced by Python's `json` module for the payloads this
client handles (numbers restricted to integers, which is all the polling API
uses: ids and counts). -/
inductive Json where
  | null
  | bool (b : Bool)
  | num (n : Int)
  | str (s : String)
  | arr (elems : List Json)
  | obj (fields : List (String × Json))
deriving Inhabited

/-! ### Python `str` of an integer -/

/-- Decimal digit character for `d % 10`. -/
def digitChar (d : Nat) : Char := Char.ofNat (48 + d % 10)

/-- Accumulator-style decimal digits of a natural number, most significant
first.  Fuel-structural so that it reduces in the kernel; `fuel = n + 1`
always suffices. -/
def natToDigitsAux : Nat → Nat → List Char → List Char
  | 0, _, acc => acc
  | fuel + 1, n, acc =>
    if n < 10 then digitChar n :: acc
    else natToDigitsAux fuel (n / 10) (digitChar (n % 10) :: acc)

/-- Python `str(n)` for a natural number. -/
def pyStrNat (n : Nat) : String := String.mk (natToDigitsAux (n + 1) n [])

/-- Python `str(n)` for an integer (f-string interpolation of an `int`). -/
def pyStr (n : Int) : String :=
  if n < 0 then "-" ++ pyStrNat n.natAbs else pyStrNat n.natAbs

/-! ### Python `json.dumps` -/

/-- JSON string escaping as Python `json.dumps` performs it on the
characters appearing in this client's payloads (quote, backslash and the
common control characters; `ensure_ascii` handling of other code points is
outside the payloads this API carries). -/
def escapeChar (c : Char) : String :=
  if c = '"' then "\\\""
  else if c = '\\' then "\\\\"
  else if c = '\n' then "\\n"
  else if c = '\t' then "\\t"
  else if c = '\r' then "\\r"
  else String.singleton c

/-- Escape every character of a JSON string body. -/
def escapeString (s : String) : String :=
  s.data.foldr (fun c acc => escapeChar c ++ acc) ""

mutual

/-- Python `json.dumps` with its default separators `", "` and `": "`:
a space follows every comma and every colon, and object keys keep their
insertion order. -/
def Json.dumps : Json → String
  | .null => "null"
  | .bool b => if b then "true" else "false"
  | .num n => pyStr n
  | .str s => "\"" ++ escapeString s ++ "\""
  | .arr xs => "[" ++ Json.dumpsElems xs ++ "]"
  | .obj fs => "\x7b" ++ Json.dumpsFields fs ++ "\x7d"

/-- Array elements joined by `", "`. -/
def Json.dumpsElems : List Json → String
  | [] => ""
  | [x] => Json.dumps x
  | x :: y :: rest => Json.dumps x ++ ", " ++ Json.dumpsElems (y :: rest)

/-- Object members rendered as `"key": value` joined by `", "`. -/
def Json.dumpsFields : List (String × Json) → String
  | [] => ""
  | [(k, v)] => "\"" ++ escapeString k ++ "\": " ++ Json.dumps v
  | (k, v) :: kv :: rest =>
      "\"" ++ escapeString k ++ "\": " ++ Json.dumps v ++ ", "
        ++ Json.dumpsFields (kv :: rest)

end

/-! ### JSON parsing (the `response.json()` boundary) -/

/-- Skip JSON whitespace. -/
def skipWs : List Char → List Char
  | c :: cs => if c = ' ' ∨ c = '\n' ∨ c = '\t' ∨ c = '\r' then skipWs cs else c :: cs
  | [] => []

/-- Consume an expected literal, returning the remaining input. -/
def dropLit : List Char → List Char → Option (List Char)
  | [], cs => some cs
  | l :: ls, c :: cs => if c = l then dropLit ls cs else none
  | _ :: _, [] => none

/-- Decode a single-character JSON escape. -/
def escDecode (e : Char) : Option Char :=
  if e = '"' then some '"'
  else if e = '\\' then some '\\'
  else if e = '/' then some '/'
  else if e = 'n' then some '\n'
  else if e = 't' then some '\t'
  else if e = 'r' then some '\r'
  else if e = 'b' then some (Char.ofNat 8)
  else if e = 'f' then some (Char.ofNat 12)
  else none

/-- Parse the body of a JSON string after the opening quote, accumulating
characters in reverse. -/
def parseStrAux : Nat → List Char → List Char → Option (String × List Char)
  | 0, _, _ => none
  | _ + 1, _, [] => none
  | fuel + 1, acc, c :: cs =>
    if c = '"' then some (String.mk acc.reverse, cs)
    else if c = '\\' then
      match cs with
      | [] => none
      | e :: cs2 =>
        match escDecode e with
        | some d => parseStrAux fuel (d :: acc) cs2
        | none => none
    else parseStrAux fuel (c :: acc) cs

/-- Digit run value. -/
def digitsToNat (ds : List Char) : Nat :=
  ds.foldl (fun a c => a * 10 + (c.toNat - 48)) 0

mutual

/-- Parse one JSON value from the input, returning it with the remaining
input.  Fuel-structural; every recursive call strictly decreases the fuel. -/
def parseVal : Nat → List Char → Option (Json × List Char)
  | 0, _ => none
  | fuel + 1, cs =>
    match skipWs cs with
    | [] => none
    | c :: cs1 =>
      if c = 'n' then
        match dropLit ['u', 'l', 'l'] cs1 with
        | some rest => some (Json.null, rest)
        | none => none
      else if c = 't' then
        match dropLit ['r', 'u', 'e'] cs1 with
        | some rest => some (Json.bool true, rest)
        | none => none
      else if c = 'f' then
        match dropLit ['a', 'l', 's', 'e'] cs1 with
        | some rest => some (Json.bool false, rest)
        | none => none
      else if c = '"' then
        match parseStrAux fuel [] cs1 with
        | some (s, rest) => some (Json.str s, rest)
        | none => none
      else if c = '[' then parseArrRest fuel cs1
      else if c = Char.ofNat 123 then parseObjRest fuel cs1
      else if c = '-' then
        match List.span Char.isDigit cs1 with
        | ([], _) => none
        | (ds, rest) => some (Json.num (-(Int.ofNat (digitsToNat ds))), rest)
      else if c.isDigit then
        match List.span Char.isDigit (c :: cs1) with
        | (ds, rest) => some (Json.num (Int.ofNat (digitsToNat ds)), rest)
      else none

/-- Parse the remainder of a JSON array after `[`. -/
def parseArrRest : Nat → List Char → Option (Json × List Char)
  | 0, _ => none
  | fuel + 1, cs =>
    match skipWs cs with
    | ']' :: cs1 => some (Json.arr [], cs1)
    | cs1 =>
      match parseVal fuel cs1 with
      | some (v, rest) => parseArrTail fuel [v] rest
      | none => none

/-- Parse `, value`* `]` after the first array element, elements
accumulated in reverse. -/
def parseArrTail : Nat → List Json → List Char → Option (Json × List Char)
  | 0, _, _ => none
  | fuel + 1, acc, cs =>
    match skipWs cs with
    | ']' :: cs1 => some (Json.arr acc.reverse, cs1)
    | ',' :: cs1 =>
      match parseVal fuel cs1 with
      | some (v, rest) => parseArrTail fuel (v :: acc) rest
      | none => none
    | _ => none

/-- Parse the remainder of a JSON object after `{`. -/
def parseObjRest : Nat → List Char → Option (Json × List Char)
  | 0, _ => none
  | fuel + 1, cs =>
    match skipWs cs with
    | c :: cs1 =>
      if c = Char.ofNat 125 then some (Json.obj [], cs1)
      else parseObjTail fuel [] cs
    | [] => none

/-- Parse `"key": value` members, separated by commas, terminated by `}`,
members accumulated in reverse.  Invoked positioned at a key. -/
def parseObjTail : Nat → List (String × Json) → List Char → Option (Json × List Char)
  | 0, _, _ => none
  | fuel + 1, acc, cs =>
    match skipWs cs with
    | '"' :: cs1 =>
      match parseStrAux fuel [] cs1 with
      | some (k, rest1) =>
        match skipWs rest1 with
        | ':' :: rest2 =>
          match parseVal fuel rest2 with
          | some (v, rest3) =>
            match skipWs rest3 with
            | ',' :: rest4 => parseObjTail fuel ((k, v) :: acc) rest4
            | c :: rest4 =>
              if c = Char.ofNat 125 then some (Json.obj (((k, v) :: acc).reverse), rest4) else none
            | [] => none
          | none => none
        | _ => none
      | none => none
    | _ => none

end

/-- Parse a whole string as one JSON document: one value surrounded only by
whitespace.  Models the `response.json()` call: `some` is a successful
decode, `none` raises a JSON decode error. -/
def Json.parse (s : String) : Option Json :=
  match parseVal (3 * s.length + 16) s.data with
  | some (v, rest) =>
    match skipWs rest with
    | [] => some v
    | _ :: _ => none
  | none => none

/-! ### `urllib` percent-encoding (`quote_plus`), used by `requests` for
form bodies and query parameters -/

/-- UTF-8 bytes of one character. -/
def utf8Bytes (c : Char) : List Nat :=
  let n := c.toNat
  if n < 128 then [n]
  else if n < 2048 then [192 + n / 64, 128 + n % 64]
  else if n < 65536 then [224 + n / 4096, 128 + (n / 64) % 64, 128 + n % 64]
  else [240 + n / 262144, 128 + (n / 4096) % 64, 128 + (n / 64) % 64, 128 + n % 64]

/-- UTF-8 bytes of a character list. -/
def listBytes : List Char → List Nat
  | [] => []
  | c :: cs => utf8Bytes c ++ listBytes cs

/-- Bytes left untouched by `urllib.parse.quote_plus`: ASCII alphanumerics
and `-`, `.`, `_`, `~`. -/
def isSafeByte (b : Nat) : Bool :=
  (48 ≤ b && b ≤ 57) || (65 ≤ b && b ≤ 90) || (97 ≤ b && b ≤ 122)
    || b == 45 || b == 46 || b == 95 || b == 126

/-- Uppercase hexadecimal digit. -/
def hexDigit (n : Nat) : Char :=
  if n < 10 then Char.ofNat (48 + n) else Char.ofNat (55 + n % 16)

/-- Encoding of one byte under `quote_plus`: safe bytes pass through, a
space becomes `+`, every other byte becomes `%XX`. -/
def quoteByte (b : Nat) : String :=
  if isSafeByte b then String.singleton (Char.ofNat b)
  else if b == 32 then "+"
  else "%" ++ String.singleton (hexDigit (b / 16)) ++ String.singleton (hexDigit (b % 16))

/-- Encode a byte list. -/
def quoteBytes : List Nat → String
  | [] => ""
  | b :: bs => quoteByte b ++ quoteBytes bs

/-- `urllib.parse.quote_plus` over the UTF-8 bytes of a string. -/
def quotePlus (s : String) : String := quoteBytes (listBytes s.data)

/-- `urllib.parse.urlencode`: `key=value` pairs joined by `&`, each side
encoded with `quote_plus`.  `requests` uses this both for `data=` form
bodies and for `params=` query strings. -/
def formUrlEncode : List (String × String) → String
  | [] => ""
  | [(k, v)] => quotePlus k ++ "=" ++ quotePlus v
  | (k, v) :: kv :: rest =>
      quotePlus k ++ "=" ++ quotePlus v ++ "&" ++ formUrlEncode (kv :: rest)

/-! ### The network boundary and the error taxonomy -/

/-- What the network delivers for one HTTP call: either a final response
(after any redirect handling inside `requests`), with its status code and
raw body text, or a transport-level failure in which no response was
received (DNS failure, connection refused, timeout, malformed response). -/
inductive NetOutcome where
  | response (status : Nat) (body : String)
  | noResponse (cause : String)

/-- The client's error taxonomy.
  * `httpStatusError`: `requests.exceptions.HTTPError` raised by
    `raise_for_status`, carrying the response's status code and body;
  * `transportError`: a `requests.exceptions.RequestException` other than
    `HTTPError` (connection errors, timeouts, ...), carrying its cause;
  * `decodeError`: the JSON decode error raised by `response.json()`,
    carrying the undecodable body. -/
inductive ClientError where
  | httpStatusError (status : Nat) (body : String)
  | transportError (cause : String)
  | decodeError (body : String)

/-- The HTTP request a client function sends. -/
structure HttpRequest where
  method : String
  url : String
  headers : List (String × String)
  body : String

/-- Everything observable about one client call: the request it sent, the
value it returns or the error it raises, and the diagnostic lines it
prints. -/
structure CallResult where
  request : HttpRequest
  result : Except ClientError Json
  printed : List String

/-- The response/error handling shared by all six client functions:
`raise_for_status` (which raises exactly for statuses 400–599), JSON
decoding of the body otherwise, the generic diagnostic print for each
caught exception class, the endpoint-specific status hints, and the
re-raise.  Returns the propagated result and the printed lines. -/
def handleResponse (hints : Nat → List String) :
    NetOutcome → Except ClientError Json × List String
  | .noResponse cause =>
      (.error (.transportError cause), ["A request error occurred: " ++ cause])
  | .response s b =>
      if 400 ≤ s ∧ s < 600 then
        (.error (.httpStatusError s b),
          ("HTTP error occurred: " ++ pyStrNat s) :: hints s)
      else
        match Json.parse b with
        | some x => (.ok x, [])
        | none => (.error (.decodeError b),
            ["A request error occurred: invalid JSON body"])

/-- `register_user`: hint printed when the status is 400. -/
def registerHints (s : Nat) : List String :=
  if s = 400 then ["Username may already be registered."] else []

/-- `login`: hint printed when the status is 400. -/
def loginHints (s : Nat) : List String :=
  if s = 400 then ["Incorrect username or password."] else []

/-- `get_polls` prints no endpoint-specific hint. -/
def getPollsHints (_ : Nat) : List String := []

/-- `create_poll`: hint printed when the status is 401. -/
def createPollHints (s : Nat) : List String :=
  if s = 401 then ["Unauthorized. Please check your token."] else []

/-- `cast_vote`: hints printed when the status is 401 or 404. -/
def castVoteHints (s : Nat) : List String :=
  if s = 401 then ["Unauthorized. Please check your token."]
  else if s = 404 then ["Poll or option not found."] else []

/-- `get_poll_results`: hint printed when the status is 404. -/
def getPollResultsHints (s : Nat) : List String :=
  if s = 404 then ["Poll not found."] else []

/-! ### The six client functions.  Each takes its Python arguments plus the
simulated network outcome; the Python default `base_url` is modelled by the
explicit argument, with the default value recorded in `defaultBaseUrl`. -/

/-- The `base_url` default of every client function. -/
def defaultBaseUrl : String := "http://localhost:8000"

/-- `register_user(username, password, base_url)`: POST `{base}/register`
with the credentials as a `json.dumps` body and a JSON content type. -/
def register_user (username password base_url : String) (net : NetOutcome) : CallResult :=
  { request :=
      { method := "POST"
      , url := base_url ++ "/register"
      , headers := [("Content-Type", "application/json")]
      , body := Json.dumps (Json.obj
          [("username", Json.str username), ("password", Json.str password)]) }
  , result := (handleResponse registerHints net).1
  , printed := (handleResponse registerHints net).2 }

/-- `login(username, password, base_url)`: POST `{base}/login` with the
credentials form-urlencoded (a `dict` passed as `data=` is urlencoded by
`requests`) and the form content type. -/
def login (username password base_url : String) (net : NetOutcome) : CallResult :=
  { request :=
      { method := "POST"
      , url := base_url ++ "/login"
      , headers := [("Content-Type", "application/x-www-form-urlencoded")]
      , body := formUrlEncode [("username", username), ("password", password)] }
  , result := (handleResponse loginHints net).1
  , printed := (handleResponse loginHints net).2 }

/-- `get_polls(skip, limit, base_url)`: GET `{base}/polls` with `skip` and
`limit` as query parameters, urlencoded in that order. -/
def get_polls (skip limit : Int) (base_url : String) (net : NetOutcome) : CallResult :=
  { request :=
      { method := "GET"
      , url := base_url ++ "/polls?"
          ++ formUrlEncode [("skip", pyStr skip), ("limit", pyStr limit)]
      , headers := []
      , body := "" }
  , result := (handleResponse getPollsHints net).1
  , printed := (handleResponse getPollsHints net).2 }

/-- The call `get_polls()` with every argument omitted, using the Python
defaults `skip=0`, `limit=10`, `base_url="http://localhost:8000"`. -/
def get_polls_defaults (net : NetOutcome) : CallResult :=
  get_polls 0 10 defaultBaseUrl net

/-- `create_poll(question, options, token, base_url)`: POST `{base}/polls`
with the question and options as a `json.dumps` body, a JSON content type
and a bearer-token authorization header. -/
def create_poll (question : String) (options : List String)
    (token base_url : String) (net : NetOutcome) : CallResult :=
  { request :=
      { method := "POST"
      , url := base_url ++ "/polls"
      , headers := [("Content-Type", "application/json"),
                    ("Authorization", "Bearer " ++ token)]
      , body := Json.dumps (Json.obj
          [("question", Json.str question),
           ("options", Json.arr (options.map Json.str))]) }
  , result := (handleResponse createPollHints net).1
  , printed := (handleResponse createPollHints net).2 }

/-- `cast_vote(poll_id, option_id, token, base_url)`: POST
`{base}/polls/{poll_id}/vote` with the option id as a `json.dumps` body, a
JSON content type and a bearer-token authorization header. -/
def cast_vote (poll_id option_id : Int) (token base_url : String)
    (net : NetOutcome) : CallResult :=
  { request :=
      { method := "POST"
      , url := base_url ++ "/polls/" ++ pyStr poll_id ++ "/vote"
      , headers := [("Content-Type", "application/json"),
                    ("Authorization", "Bearer " ++ token)]
      , body := Json.dumps (Json.obj [("option_id", Json.num option_id)]) }
  , result := (handleResponse castVoteHints net).1
  , printed := (handleResponse castVoteHints net).2 }

/-- `get_poll_results(poll_id, base_url)`: GET
`{base}/polls/{poll_id}/results` with no body and no extra headers. -/
def get_poll_results (poll_id : Int) (base_url : String)
    (net : NetOutcome) : CallResult :=
  { request :=
      { method := "GET"
      , url := base_url ++ "/polls/" ++ pyStr poll_id ++ "/results"
      , headers := []
      , body := "" }
  , result := (handleResponse getPollResultsHints net).1
  , printed := (handleResponse getPollResultsHints net).2 }

/-! ### The `__main__` example driver -/

/-- The five steps of the example driver, in order. -/
inductive Step where
  | register
  | login
  | createPoll
  | vote
  | results
deriving DecidableEq, Repr

/-- Python truthiness of a JSON value: `None`, `False`, `0`, `""`, `[]` and
`{}` are falsy, everything else truthy. -/
def truthy : Json → Bool
  | .null => false
  | .bool b => b
  | .num n => n != 0
  | .str s => s ≠ ""
  | .arr xs => !xs.isEmpty
  | .obj fs => !fs.isEmpty

/-- Truthiness of a `dict.get` result, where a missing key (`None`) is
falsy. -/
def pyTruthyOpt : Option Json → Bool
  | none => false
  | some j => truthy j

/-- Python `dict` lookup on the field list of a JSON object: the last
binding of a key wins, as in a `dict` built by the `json` decoder. -/
def lookupField (fs : List (String × Json)) (k : String) : Option Json :=
  fs.foldl (fun acc kv => if kv.1 = k then some kv.2 else acc) none

/-- `value.get(key)` on a decoded JSON value: `none` models the
`AttributeError` crash when the value is not a dict, `some r` the Python
result (`r = none` for a missing key, i.e. Python `None`). -/
def dictGet (j : Json) (k : String) : Option (Option Json) :=
  match j with
  | .obj fs => some (lookupField fs k)
  | _ => none

/-- The driver's id extraction from the create-poll response:
`poll_id = new_poll.get("id")` and
`option_id = new_poll.get("options", [{}])[0].get("id")`.
`none` models an uncaught Python crash during the extraction (a non-dict
response, an empty options list hitting `[0]` with an `IndexError`, a
non-list options value, or a non-dict first option); `some (pollId,
optionId)` gives the two extracted values, each `none` when its key is
missing. -/
def pollIds (newPoll : Json) : Option (Option Json × Option Json) :=
  match newPoll with
  | .obj fs =>
    match (match lookupField fs "options" with
           | some v => v
           | none => Json.arr [Json.obj []]) with
    | .arr (.obj ofs :: _) => some (lookupField fs "id", lookupField ofs "id")
    | _ => none
  | _ => none

/-- The `__main__` example driver's control flow, as a function from the
outcome each client call would have to the list of steps actually
attempted.  Mirrors the Python script: a caught `RequestException` in a
step calls `exit()` (except for the vote step, whose handler is `pass`);
an uncaught crash during token or id extraction likewise stops the script;
a falsy token, poll id or option id triggers an explicit `exit()`. -/
def driver (reg log cre _vote _res : Except ClientError Json) : List Step :=
  match reg with
  | .error _ => [Step.register]
  | .ok _ =>
    match log with
    | .error _ => [Step.register, Step.login]
    | .ok loginResponse =>
      match dictGet loginResponse "access_token" with
      | none => [Step.register, Step.login]
      | some token =>
        if pyTruthyOpt token = false then [Step.register, Step.login]
        else
          match cre with
          | .error _ => [Step.register, Step.login, Step.createPoll]
          | .ok newPoll =>
            match pollIds newPoll with
            | none => [Step.register, Step.login, Step.createPoll]
            | some (pollId, optionId) =>
              if pyTruthyOpt pollId = false ∨ pyTruthyOpt optionId = false then
                [Step.register, Step.login, Step.createPoll]
              else
                [Step.register, Step.login, Step.createPoll, Step.vote, Step.results]

/-! ### Helper notions and lemmas -/

/-- A character that `quote_plus` passes through unchanged: ASCII and in the
safe set. -/
def safeChar (c : Char) : Prop := c.toNat < 128 ∧ isSafeByte c.toNat = true

/-- The transport branch of the shared handler. -/
theorem handleResponse_noResponse (hints : Nat → List String) (cause : String) :
    handleResponse hints (NetOutcome.noResponse cause)
      = (.error (.transportError cause), ["A request error occurred: " ++ cause]) := rfl

/-- `raise_for_status` branch: statuses 400–599 raise, carrying status and
body, and the generic diagnostic plus the endpoint hints are printed. -/
theorem handleResponse_statusError (hints : Nat → List String) (s : Nat) (b : String)
    (h4 : 400 ≤ s) (h6 : s < 600) :
    handleResponse hints (NetOutcome.response s b)
      = (.error (.httpStatusError s b),
          ("HTTP error occurred: " ++ pyStrNat s) :: hints s) := by
  simp only [handleResponse]
  rw [if_pos (And.intro h4 h6)]

/-- Success branch: a non-raising status with a decodable body returns the
decoded value and prints nothing. -/
theorem handleResponse_ok (hints : Nat → List String) (s : Nat) (b : String) (X : Json)
    (hs : ¬ (400 ≤ s ∧ s < 600)) (hp : Json.parse b = some X) :
    handleResponse hints (NetOutcome.response s b) = (.ok X, []) := by
  simp only [handleResponse]
  rw [if_neg hs, hp]

/-- Decode-failure branch: a non-raising status with an undecodable body
propagates the JSON decode error. -/
theorem handleResponse_decode (hints : Nat → List String) (s : Nat) (b : String)
    (hs : ¬ (400 ≤ s ∧ s < 600)) (hp : Json.parse b = none) :
    handleResponse hints (NetOutcome.response s b)
      = (.error (.decodeError b), ["A request error occurred: invalid JSON body"]) := by
  simp only [handleResponse]
  rw [if_neg hs, hp]

/-- Every decimal digit character is safe under `quote_plus`. -/
theorem safeChar_digitChar (d : Nat) : safeChar (digitChar d) := by
  unfold digitChar
  have h : d % 10 < 10 := Nat.mod_lt _ (by omega)
  generalize d % 10 = m at h
  interval_cases m <;> exact ⟨by decide, by decide⟩

/-- Every character produced by the decimal rendering is safe, provided the
accumulator only holds safe characters. -/
theorem natToDigitsAux_safe :
    ∀ fuel n (acc : List Char), (∀ c ∈ acc, safeChar c) →
      ∀ c ∈ natToDigitsAux fuel n acc, safeChar c := by
  intro fuel
  induction fuel with
  | zero => intro n acc hacc c hc; exact hacc c hc
  | succ fuel ih =>
    intro n acc hacc c hc
    by_cases h : n < 10
    · simp only [natToDigitsAux, if_pos h] at hc
      rcases List.mem_cons.mp hc with h1 | h1
      · exact h1 ▸ safeChar_digitChar n
      · exact hacc c h1
    · simp only [natToDigitsAux, if_neg h] at hc
      refine ih (n / 10) _ ?_ c hc
      intro x hx
      rcases List.mem_cons.mp hx with h1 | h1
      · exact h1 ▸ safeChar_digitChar (n % 10)
      · exact hacc x h1

/-- `quote_plus` is the identity on strings of safe ASCII characters. -/
theorem quoteBytes_safe :
    ∀ cs : List Char, (∀ c ∈ cs, safeChar c) → quoteBytes (listBytes cs) = String.mk cs := by
  intro cs
  induction cs with
  | nil => intro _; rfl
  | cons c cs ih =>
    intro h
    have hc := h c (List.mem_cons_self c cs)
    have hcs : ∀ x ∈ cs, safeChar x := fun x hx => h x (List.mem_cons_of_mem _ hx)
    have hb : utf8Bytes c = [c.toNat] := by simp [utf8Bytes, hc.1]
    have hq : quoteByte c.toNat = String.singleton c := by
      simp [quoteByte, hc.2, Char.ofNat_toNat]
    have hl : listBytes (c :: cs) = c.toNat :: listBytes cs := by simp [listBytes, hb]
    rw [hl]
    show quoteByte c.toNat ++ quoteBytes (listBytes cs) = String.mk (c :: cs)
    rw [hq, ih hcs]
    apply String.ext
    simp [String.data_append, String.singleton]

/-- `quote_plus` leaves the decimal rendering of a natural number alone. -/
theorem quotePlus_pyStrNat (n : Nat) : quotePlus (pyStrNat n) = pyStrNat n := by
  unfold quotePlus pyStrNat
  exact quoteBytes_safe _ (natToDigitsAux_safe (n + 1) n [] (by simp))

/-- `quote_plus` leaves Python `str(n)` of any integer alone. -/
theorem quotePlus_pyStr (n : Int) : quotePlus (pyStr n) = pyStr n := by
  unfold pyStr
  by_cases h : n < 0
  · rw [if_pos h]
    have hchars : ("-" ++ pyStrNat n.natAbs)
        = String.mk ('-' :: natToDigitsAux (n.natAbs + 1) n.natAbs []) := by
      apply String.ext
      simp [String.data_append, pyStrNat]
    rw [hchars]
    apply quoteBytes_safe
    intro c hc
    rcases List.mem_cons.mp hc with h1 | h1
    · exact h1 ▸ ⟨by decide, by decide⟩
    · exact natToDigitsAux_safe _ _ [] (by simp) c h1
  · rw [if_neg h]
    exact quotePlus_pyStrNat n.natAbs

/-- `json.dumps` of an object of two string fields, in explicit byte form. -/
theorem dumps_obj_two_str (k1 k2 u p : String) :
    Json.dumps (Json.obj [(k1, Json.str u), (k2, Json.str p)])
      = "\x7b\"" ++ escapeString k1 ++ "\": \"" ++ escapeString u ++ "\", \""
          ++ escapeString k2 ++ "\": \"" ++ escapeString p ++ "\"\x7d" := by
  simp only [Json.dumps, Json.dumpsFields]
  apply String.ext
  simp [String.data_append]

/-! ### The claims -/

/-- C1: for every operation (register_user, login, get_polls, create_poll,
cast_vote, get_poll_results) and every 2xx HTTP response whose body is a
JSON value X, the operation returns X unchanged — pass-through of the
parsed JSON body. -/
theorem pass_through_2xx (username password question token base b : String)
    (options : List String) (skip limit poll_id option_id : Int)
    (s : Nat) (X : Json) (h2 : 200 ≤ s) (h3 : s ≤ 299) (hp : Json.parse b = some X) :
    (register_user username password base (.response s b)).result = .ok X ∧
    (login username password base (.response s b)).result = .ok X ∧
    (get_polls skip limit base (.response s b)).result = .ok X ∧
    (create_poll question options token base (.response s b)).result = .ok X ∧
    (cast_vote poll_id option_id token base (.response s b)).result = .ok X ∧
    (get_poll_results poll_id base (.response s b)).result = .ok X := by
  have hs : ¬ (400 ≤ s ∧ s < 600) := by omega
  refine ⟨?_, ?_, ?_, ?_, ?_, ?_⟩ <;>
    simp [register_user, login, get_polls, create_poll, cast_vote, get_poll_results,
      handleResponse_ok _ _ _ _ hs hp]

/-- Witness for C1: a simulated `200` response with body `{}` makes every
operation return the empty JSON object. -/
theorem pass_through_2xx_witness :
    (register_user "u" "p" "http://localhost:8000" (.response 200 "\x7b\x7d")).result
        = .ok (Json.obj []) ∧
    (login "u" "p" "http://localhost:8000" (.response 200 "\x7b\x7d")).result
        = .ok (Json.obj []) ∧
    (get_polls 0 10 "http://localhost:8000" (.response 200 "\x7b\x7d")).result
        = .ok (Json.obj []) ∧
    (create_poll "q" ["a"] "t" "http://localhost:8000" (.response 200 "\x7b\x7d")).result
        = .ok (Json.obj []) ∧
    (cast_vote 1 2 "t" "http://localhost:8000" (.response 200 "\x7b\x7d")).result
        = .ok (Json.obj []) ∧
    (get_poll_results 1 "http://localhost:8000" (.response 200 "\x7b\x7d")).result
        = .ok (Json.obj []) :=
  pass_through_2xx "u" "p" "q" "t" "http://localhost:8000" "\x7b\x7d" ["a"] 0 10 1 2 200
    (Json.obj []) (by omega) (by omega) (by rfl)

/-- C2 counterexample: a simulated `300` (non-2xx) response with body `{}`
does NOT fail with an HttpStatusError — `raise_for_status` only raises for
statuses 400–599, so the operation returns the parsed body instead. -/
theorem non2xx_not_always_error :
    (register_user "u" "p" "http://localhost:8000" (NetOutcome.response 300 "\x7b\x7d")).result
      = Except.ok (Json.obj []) := rfl

/-- C2 (amended): for every operation and every HTTP response with a status
code S in 400–599, the operation fails with an HttpStatusError carrying the
same status code S and the response body, rather than returning a value. -/
theorem http_status_error_400_to_599
    (username password question token base b : String)
    (options : List String) (skip limit poll_id option_id : Int)
    (s : Nat) (h4 : 400 ≤ s) (h6 : s < 600) :
    (register_user username password base (.response s b)).result
        = .error (.httpStatusError s b) ∧
    (login username password base (.response s b)).result
        = .error (.httpStatusError s b) ∧
    (get_polls skip limit base (.response s b)).result
        = .error (.httpStatusError s b) ∧
    (create_poll question options token base (.response s b)).result
        = .error (.httpStatusError s b) ∧
    (cast_vote poll_id option_id token base (.response s b)).result
        = .error (.httpStatusError s b) ∧
    (get_poll_results poll_id base (.response s b)).result
        = .error (.httpStatusError s b) := by
  refine ⟨?_, ?_, ?_, ?_, ?_, ?_⟩ <;>
    simp [register_user, login, get_polls, create_poll, cast_vote, get_poll_results,
      handleResponse_statusError _ _ _ h4 h6]

/-- Witness for C2 (amended): a simulated `404` response fails every
operation with an HttpStatusError carrying 404 and the body. -/
theorem http_status_error_400_to_599_witness :
    (register_user "u" "p" "http://localhost:8000" (.response 404 "nf")).result
        = .error (.httpStatusError 404 "nf") ∧
    (login "u" "p" "http://localhost:8000" (.response 404 "nf")).result
        = .error (.httpStatusError 404 "nf") ∧
    (get_polls 0 10 "http://localhost:8000" (.response 404 "nf")).result
        = .error (.httpStatusError 404 "nf") ∧
    (create_poll "q" ["a"] "t" "http://localhost:8000" (.response 404 "nf")).result
        = .error (.httpStatusError 404 "nf") ∧
    (cast_vote 1 2 "t" "http://localhost:8000" (.response 404 "nf")).result
        = .error (.httpStatusError 404 "nf") ∧
    (get_poll_results 1 "http://localhost:8000" (.response 404 "nf")).result
        = .error (.httpStatusError 404 "nf") :=
  http_status_error_400_to_599 "u" "p" "q" "t" "http://localhost:8000" "nf" ["a"] 0 10 1 2 404
    (by omega) (by omega)

/-- C3: for every operation, a transport-level failure with no HTTP response
fails with a TransportError carrying its cause, and a TransportError is
never an HttpStatusError (the kinds are distinct constructors). -/
theorem transport_error_no_response
    (username password question token base cause : String)
    (options : List String) (skip limit poll_id option_id : Int) :
    (register_user username password base (.noResponse cause)).result
        = .error (.transportError cause) ∧
    (login username password base (.noResponse cause)).result
        = .error (.transportError cause) ∧
    (get_polls skip limit base (.noResponse cause)).result
        = .error (.transportError cause) ∧
    (create_poll question options token base (.noResponse cause)).result
        = .error (.transportError cause) ∧
    (cast_vote poll_id option_id token base (.noResponse cause)).result
        = .error (.transportError cause) ∧
    (get_poll_results poll_id base (.noResponse cause)).result
        = .error (.transportError cause) ∧
    (∀ s b, ClientError.transportError cause ≠ ClientError.httpStatusError s b) :=
  ⟨rfl, rfl, rfl, rfl, rfl, rfl, fun _ _ h => ClientError.noConfusion h⟩

/-- C4: for the classified statuses (400 on register and on login, 401 on
create_poll and on cast_vote, 404 on cast_vote and on get_poll_results) the
corresponding human-readable hint is printed, and the hint does not change
control flow: the same HttpStatusError, with the same status code and body,
still propagates to the caller. -/
theorem hints_surfaced_error_propagates
    (username password question token base b : String)
    (options : List String) (poll_id option_id : Int) :
    ((register_user username password base (.response 400 b)).result
        = .error (.httpStatusError 400 b) ∧
      "Username may already be registered."
        ∈ (register_user username password base (.response 400 b)).printed) ∧
    ((login username password base (.response 400 b)).result
        = .error (.httpStatusError 400 b) ∧
      "Incorrect username or password."
        ∈ (login username password base (.response 400 b)).printed) ∧
    ((create_poll question options token base (.response 401 b)).result
        = .error (.httpStatusError 401 b) ∧
      "Unauthorized. Please check your token."
        ∈ (create_poll question options token base (.response 401 b)).printed) ∧
    ((cast_vote poll_id option_id token base (.response 401 b)).result
        = .error (.httpStatusError 401 b) ∧
      "Unauthorized. Please check your token."
        ∈ (cast_vote poll_id option_id token base (.response 401 b)).printed) ∧
    ((cast_vote poll_id option_id token base (.response 404 b)).result
        = .error (.httpStatusError 404 b) ∧
      "Poll or option not found."
        ∈ (cast_vote poll_id option_id token base (.response 404 b)).printed) ∧
    ((get_poll_results poll_id base (.response 404 b)).result
        = .error (.httpStatusError 404 b) ∧
      "Poll not found."
        ∈ (get_poll_results poll_id base (.response 404 b)).printed) := by
  refine ⟨⟨?_, ?_⟩, ⟨?_, ?_⟩, ⟨?_, ?_⟩, ⟨?_, ?_⟩, ⟨?_, ?_⟩, ⟨?_, ?_⟩⟩ <;>
    simp [register_user, login, create_poll, cast_vote, get_poll_results,
      handleResponse, registerHints, loginHints, createPollHints, castVoteHints,
      getPollResultsHints]

/-- C5 counterexample: for Q = "Q" and O = ["A", "B"], the body sent by
create_poll is NOT the compact string without separator spaces claimed by
the spec — Python `json.dumps` inserts a space after each colon and comma. -/
theorem create_poll_body_not_compact :
    (create_poll "Q" ["A", "B"] "t" "http://localhost:8000"
        (NetOutcome.noResponse "x")).request.body
      ≠ "\x7b\"question\":\"Q\",\"options\":[\"A\",\"B\"]\x7d" := by decide

/-- C5 (amended): for every question Q, options list O and token T,
create_poll(Q, O, T) sends a POST to `{base}/polls` whose body is the
Python `json.dumps` serialization of the object with keys `question` and
`options` in that order (same JSON value as claimed, but rendered with
`json.dumps` default separators, a space after each colon and comma: for
Q = "Q" and O = ["A", "B"] the body is exactly
`{"question": "Q", "options": ["A", "B"]}`), with headers
`Authorization: Bearer T` and `Content-Type: application/json`. -/
theorem create_poll_request_shape (question token base : String)
    (options : List String) (net : NetOutcome) :
    (create_poll question options token base net).request.method = "POST" ∧
    (create_poll question options token base net).request.url = base ++ "/polls" ∧
    (create_poll question options token base net).request.body
      = Json.dumps (Json.obj [("question", Json.str question),
          ("options", Json.arr (options.map Json.str))]) ∧
    ("Authorization", "Bearer " ++ token)
      ∈ (create_poll question options token base net).request.headers ∧
    ("Content-Type", "application/json")
      ∈ (create_poll question options token base net).request.headers ∧
    (create_poll "Q" ["A", "B"] token base net).request.body
      = "\x7b\"question\": \"Q\", \"options\": [\"A\", \"B\"]\x7d" := by
  refine ⟨rfl, rfl, rfl, ?_, ?_, rfl⟩ <;> simp [create_poll]

/-- C6: for every operation and every 2xx response whose body fails to parse
as JSON, the operation fails with a DecodeError, which is distinct from both
HttpStatusError and TransportError. -/
theorem decode_error_on_2xx_bad_json
    (username password question token base b : String)
    (options : List String) (skip limit poll_id option_id : Int)
    (s : Nat) (h2 : 200 ≤ s) (h3 : s ≤ 299) (hp : Json.parse b = none) :
    (register_user username password base (.response s b)).result
        = .error (.decodeError b) ∧
    (login username password base (.response s b)).result
        = .error (.decodeError b) ∧
    (get_polls skip limit base (.response s b)).result
        = .error (.decodeError b) ∧
    (create_poll question options token base (.response s b)).result
        = .error (.decodeError b) ∧
    (cast_vote poll_id option_id token base (.response s b)).result
        = .error (.decodeError b) ∧
    (get_poll_results poll_id base (.response s b)).result
        = .error (.decodeError b) ∧
    (∀ s2 b2, ClientError.decodeError b ≠ ClientError.httpStatusError s2 b2) ∧
    (∀ c, ClientError.decodeError b ≠ ClientError.transportError c) := by
  have hs : ¬ (400 ≤ s ∧ s < 600) := by omega
  refine ⟨?_, ?_, ?_, ?_, ?_, ?_, fun _ _ h => ClientError.noConfusion h,
    fun _ h => ClientError.noConfusion h⟩ <;>
    simp [register_user, login, get_polls, create_poll, cast_vote, get_poll_results,
      handleResponse_decode _ _ _ hs hp]

/-- Witness for C6: a simulated `200` response with an empty (undecodable)
body fails register_user with a DecodeError. -/
theorem decode_error_on_2xx_bad_json_witness :
    (register_user "u" "p" "http://localhost:8000" (.response 200 "")).result
      = .error (.decodeError "") :=
  (decode_error_on_2xx_bad_json "u" "p" "q" "t" "http://localhost:8000" "" ["a"] 0 10 1 2 200
    (by omega) (by omega) (by rfl)).1

/-- C7: register_user sends its body `{username, password}` serialized as
JSON (here in explicit byte form, with the `json.dumps` escaping of both
values) under `Content-Type: application/json`, while login sends its body
form-urlencoded as `username=...&password=...` (each value
`quote_plus`-encoded) under
`Content-Type: application/x-www-form-urlencoded`; concretely, login with
username `alice` and password `p@ss w` sends
`username=alice&password=p%40ss+w`. -/
theorem register_json_login_form (username password base : String) (net : NetOutcome) :
    (register_user username password base net).request.body
      = "\x7b\"username\": \"" ++ escapeString username ++ "\", \"password\": \""
          ++ escapeString password ++ "\"\x7d" ∧
    ("Content-Type", "application/json")
      ∈ (register_user username password base net).request.headers ∧
    (login username password base net).request.body
      = "username=" ++ quotePlus username ++ "&password=" ++ quotePlus password ∧
    ("Content-Type", "application/x-www-form-urlencoded")
      ∈ (login username password base net).request.headers ∧
    (login "alice" "p@ss w" base net).request.body
      = "username=alice&password=p%40ss+w" := by
  refine ⟨?_, by simp [register_user], ?_, by simp [login], rfl⟩
  · show Json.dumps (Json.obj [("username", Json.str username),
        ("password", Json.str password)]) = _
    rw [dumps_obj_two_str]
    have h1 : escapeString "username" = "username" := rfl
    have h2 : escapeString "password" = "password" := rfl
    rw [h1, h2]
    apply String.ext
    simp [String.data_append]
  · show formUrlEncode [("username", username), ("password", password)] = _
    have h1 : quotePlus "username" = "username" := rfl
    have h2 : quotePlus "password" = "password" := rfl
    simp only [formUrlEncode, h1, h2]
    apply String.ext
    simp [String.data_append]

/-- C8: for every integers skip and limit, get_polls(skip, limit) issues a
GET whose URL carries exactly the query parameters `skip={skip}` and
`limit={limit}` in that order (so get_polls(5, 2) requests
`{base}/polls?skip=5&limit=2`), and the call with all arguments omitted
uses the defaults skip=0 and limit=10. -/
theorem get_polls_query_params (skip limit : Int) (base : String) (net : NetOutcome) :
    (get_polls skip limit base net).request.method = "GET" ∧
    (get_polls skip limit base net).request.url
        = base ++ "/polls?skip=" ++ pyStr skip ++ "&limit=" ++ pyStr limit ∧
    (get_polls 5 2 base net).request.url = base ++ "/polls?skip=5&limit=2" ∧
    get_polls_defaults net = get_polls 0 10 defaultBaseUrl net := by
  have hgen : ∀ sk li : Int, (get_polls sk li base net).request.url
      = base ++ "/polls?skip=" ++ pyStr sk ++ "&limit=" ++ pyStr li := by
    intro sk li
    show base ++ "/polls?" ++ formUrlEncode [("skip", pyStr sk), ("limit", pyStr li)]
        = base ++ "/polls?skip=" ++ pyStr sk ++ "&limit=" ++ pyStr li
    have h1 : quotePlus "skip" = "skip" := rfl
    have h2 : quotePlus "limit" = "limit" := rfl
    simp only [formUrlEncode, quotePlus_pyStr, h1, h2]
    apply String.ext
    simp [String.data_append]
  refine ⟨rfl, hgen skip limit, ?_, rfl⟩
  rw [hgen 5 2]
  apply String.ext
  simp [String.data_append, pyStr, pyStrNat, natToDigitsAux, digitChar]

/-- C9: in the example driver, a failure of any step aborts all remaining
steps — register fails: only register attempted; login fails: no poll
created; create_poll fails: no vote, no results — with the single exception
that a failed cast_vote does not prevent the driver from attempting to
fetch the poll results (all five steps are attempted). A failure of the
last step has no remaining steps to abort. -/
theorem driver_step_failure_aborts (e : ClientError) (u l c tk : Json)
    (step2 step3 vote res : Except ClientError Json)
    (htok : dictGet l "access_token" = some (some tk)) (htk : truthy tk = true)
    (pid oid : Option Json) (hids : pollIds c = some (pid, oid))
    (hpid : pyTruthyOpt pid = true) (hoid : pyTruthyOpt oid = true) :
    driver (.error e) step2 step3 vote res = [Step.register] ∧
    driver (.ok u) (.error e) step3 vote res = [Step.register, Step.login] ∧
    driver (.ok u) (.ok l) (.error e) vote res
        = [Step.register, Step.login, Step.createPoll] ∧
    driver (.ok u) (.ok l) (.ok c) (.error e) res
        = [Step.register, Step.login, Step.createPoll, Step.vote, Step.results] ∧
    driver (.ok u) (.ok l) (.ok c) vote (.error e)
        = [Step.register, Step.login, Step.createPoll, Step.vote, Step.results] := by
  have htk2 : pyTruthyOpt (some tk) = true := htk
  refine ⟨rfl, rfl, ?_, ?_, ?_⟩ <;>
    simp [driver, htok, htk2, hids, hpid, hoid]

/-- Witness for C9: a concrete transport error at each step, with a login
response carrying token "T" and a create-poll response with poll id 1 and
first option id 2. -/
theorem driver_step_failure_aborts_witness :
    driver (.error (ClientError.transportError "x"))
        (.ok (Json.obj [])) (.ok (Json.obj [])) (.ok (Json.obj [])) (.ok (Json.obj []))
      = [Step.register] ∧
    driver (.ok (Json.obj [])) (.error (ClientError.transportError "x"))
        (.ok (Json.obj [])) (.ok (Json.obj [])) (.ok (Json.obj []))
      = [Step.register, Step.login] ∧
    driver (.ok (Json.obj [])) (.ok (Json.obj [("access_token", Json.str "T")]))
        (.error (ClientError.transportError "x")) (.ok (Json.obj [])) (.ok (Json.obj []))
      = [Step.register, Step.login, Step.createPoll] ∧
    driver (.ok (Json.obj [])) (.ok (Json.obj [("access_token", Json.str "T")]))
        (.ok (Json.obj [("id", Json.num 1),
            ("options", Json.arr [Json.obj [("id", Json.num 2)]])]))
        (.error (ClientError.transportError "x")) (.ok (Json.obj []))
      = [Step.register, Step.login, Step.createPoll, Step.vote, Step.results] ∧
    driver (.ok (Json.obj [])) (.ok (Json.obj [("access_token", Json.str "T")]))
        (.ok (Json.obj [("id", Json.num 1),
            ("options", Json.arr [Json.obj [("id", Json.num 2)]])]))
        (.ok (Json.obj [])) (.error (ClientError.transportError "x"))
      = [Step.register, Step.login, Step.createPoll, Step.vote, Step.results] :=
  driver_step_failure_aborts (ClientError.transportError "x") (Json.obj [])
    (Json.obj [("access_token", Json.str "T")])
    (Json.obj [("id", Json.num 1), ("options", Json.arr [Json.obj [("id", Json.num 2)]])])
    (Json.str "T") (.ok (Json.obj [])) (.ok (Json.obj [])) (.ok (Json.obj []))
    (.ok (Json.obj [])) rfl rfl (some (Json.num 1)) (some (Json.num 2)) rfl rfl rfl

/-- C10 (implicit): the driver checks the extracted poll id and first option
id for truthiness rather than presence, so after a SUCCESSFUL create_poll
whose response has poll id 0, or first option id 0, or an empty options
list (where `[0]` raises an uncaught IndexError), the driver aborts before
voting and before fetching results. -/
theorem driver_zero_id_aborts (u l tk : Json) (vote res : Except ClientError Json)
    (htok : dictGet l "access_token" = some (some tk)) (htk : truthy tk = true)
    (fs ofs : List (String × Json)) (rest : List Json) :
    (lookupField fs "id" = some (Json.num 0) →
      driver (.ok u) (.ok l) (.ok (Json.obj fs)) vote res
        = [Step.register, Step.login, Step.createPoll]) ∧
    (lookupField fs "options" = some (Json.arr (Json.obj ofs :: rest)) →
      lookupField ofs "id" = some (Json.num 0) →
      driver (.ok u) (.ok l) (.ok (Json.obj fs)) vote res
        = [Step.register, Step.login, Step.createPoll]) ∧
    (lookupField fs "options" = some (Json.arr []) →
      driver (.ok u) (.ok l) (.ok (Json.obj fs)) vote res
        = [Step.register, Step.login, Step.createPoll]) := by
  have htk2 : pyTruthyOpt (some tk) = true := htk
  have hzero : pyTruthyOpt (some (Json.num 0)) = false := rfl
  refine ⟨?_, ?_, ?_⟩
  · intro hid
    rcases hpoll : pollIds (Json.obj fs) with _ | ⟨pid, oid⟩
    · simp [driver, htok, htk2, hpoll]
    · have hpid : pid = some (Json.num 0) := by
        simp only [pollIds] at hpoll
        split at hpoll
        · rw [← hid]
          exact ((Prod.mk.injEq _ _ _ _).mp (Option.some.inj hpoll)).1.symm
        · exact absurd hpoll (by simp)
      subst hpid
      simp [driver, htok, htk2, hpoll, hzero]
  · intro hopt hid
    have hpoll : pollIds (Json.obj fs) = some (lookupField fs "id", some (Json.num 0)) := by
      simp [pollIds, hopt, hid]
    simp [driver, htok, htk2, hpoll, hzero]
  · intro hopt
    have hpoll : pollIds (Json.obj fs) = none := by
      simp [pollIds, hopt]
    simp [driver, htok, htk2, hpoll]

/-- Witness for C10: with a login response carrying token "T", a create-poll
response with id 0, one with first option id 0, and one with an empty
options list each stop the driver after the create-poll step. -/
theorem driver_zero_id_aborts_witness :
    driver (.ok (Json.obj [])) (.ok (Json.obj [("access_token", Json.str "T")]))
        (.ok (Json.obj [("id", Json.num 0),
            ("options", Json.arr [Json.obj [("id", Json.num 2)]])]))
        (.ok (Json.obj [])) (.ok (Json.obj []))
      = [Step.register, Step.login, Step.createPoll] ∧
    driver (.ok (Json.obj [])) (.ok (Json.obj [("access_token", Json.str "T")]))
        (.ok (Json.obj [("id", Json.num 1),
            ("options", Json.arr [Json.obj [("id", Json.num 0)]])]))
        (.ok (Json.obj [])) (.ok (Json.obj []))
      = [Step.register, Step.login, Step.createPoll] ∧
    driver (.ok (Json.obj [])) (.ok (Json.obj [("access_token", Json.str "T")]))
        (.ok (Json.obj [("id", Json.num 1), ("options", Json.arr [])]))
        (.ok (Json.obj [])) (.ok (Json.obj []))
      = [Step.register, Step.login, Step.createPoll] :=
  ⟨(driver_zero_id_aborts (Json.obj []) (Json.obj [("access_token", Json.str "T")])
      (Json.str "T") (.ok (Json.obj [])) (.ok (Json.obj [])) rfl rfl
      [("id", Json.num 0), ("options", Json.arr [Json.obj [("id", Json.num 2)]])]
      [] []).1 rfl,
   (driver_zero_id_aborts (Json.obj []) (Json.obj [("access_token", Json.str "T")])
      (Json.str "T") (.ok (Json.obj [])) (.ok (Json.obj [])) rfl rfl
      [("id", Json.num 1), ("options", Json.arr [Json.obj [("id", Json.num 0)]])]
      [("id", Json.num 0)] []).2.1 rfl rfl,
   (driver_zero_id_aborts (Json.obj []) (Json.obj [("access_token", Json.str "T")])
      (Json.str "T") (.ok (Json.obj [])) (.ok (Json.obj [])) rfl rfl
      [("id", Json.num 1), ("options", Json.arr [])] [] []).2.2 rfl⟩
